import Mathlib

set_option maxRecDepth 8000

/-!
Shallow embedding of the FastAPI backend in `main.py`: a health/diagnostics
endpoint (`GET /test`), a simulated streaming chat endpoint (`POST /api/chat`),
and upsert/list operations over "ebook" draft documents held in a MongoDB-like
document store (`POST /api/ebook/save`, `GET /api/ebook/list`).

Modelling conventions:
- Python `str` is `String`; timestamps (`datetime.utcnow()`) are `Nat` ticks
  passed explicitly as the server clock value `now`.
- The shared module-level handle `db` (obtained by `from database import db`,
  which may raise) is an explicit `DbImport` value passed to each handler.
- A MongoDB collection is a list of documents plus a counter producing fresh
  `_id` values (standing in for ObjectId generation).
- Endpoints that can raise `HTTPException` return `Except HttpError α`.
- The streamed chat body is the list of emitted one-character chunks
  (each `yield ch` contributes one `Char`); the `asyncio.sleep(0.01)` pacing
  has no effect on the emitted character sequence and is not modelled.
-/

/-- Python `str.strip()` with no argument: remove leading and trailing
whitespace characters. -/
def pyStrip (s : String) : String :=
  String.mk (((s.data.dropWhile Char.isWhitespace).reverse.dropWhile Char.isWhitespace).reverse)

/-- Truthiness of an `os.getenv` result in Python: `None` and the empty
string are falsy, any other string is truthy. -/
def envTruthy : Option String → Bool
  | none => false
  | some s => !(s == "")

/-- The two environment variables read by `GET /test` (`os.getenv` results:
`none` when the variable is not present in the environment). -/
structure Env where
  DATABASE_URL : Option String
  DATABASE_NAME : Option String
deriving DecidableEq, Repr

/-- A raised `HTTPException` (status code and detail message). -/
structure HttpError where
  status : Nat
  detail : String
deriving DecidableEq, Repr

/-- `class ChatTurn(BaseModel)` in `main.py`. -/
structure ChatTurn where
  role : String
  content : String
deriving DecidableEq, Repr

/-- `class ChatRequest(BaseModel)` in `main.py`: message, history
(default empty), optional mode (e.g. `some "ebook"`). -/
structure ChatRequest where
  message : String
  history : List ChatTurn := []
  mode : Option String := none
deriving DecidableEq, Repr

/-- `class EbookPayload(BaseModel)` in `main.py`. -/
structure EbookPayload where
  id : Option String := none
  title : String
  content : String
  style : String
  progress : Int := 0
  updated_at : Option Nat := none
deriving DecidableEq, Repr

/-- A document stored in the `ebook` collection. `_id` is the identifier the
store assigned on insertion; `payloadId` is the persisted `"id"` dict key
coming from `payload.model_dump()` (the client-supplied id, possibly `none`);
the remaining fields mirror the payload, with `updated_at` stamped by the
server. -/
structure StoredDoc where
  _id : Nat
  payloadId : Option String
  title : String
  content : String
  style : String
  progress : Int
  updated_at : Nat
deriving DecidableEq, Repr

/-- The `ebook` collection: its documents plus the next fresh `_id` the store
will assign (ObjectId generation). -/
structure EbookStore where
  docs : List StoredDoc
  nextId : Nat
deriving DecidableEq, Repr

/-- An empty `ebook` collection. -/
def emptyStore : EbookStore := ⟨[], 0⟩

/-- The dict `doc` built in `save_ebook`: `payload.model_dump()` (keys `id`,
`title`, `content`, `style`, `progress`, `updated_at`) with `updated_at` then
overwritten by `datetime.utcnow()`. -/
structure DocFields where
  id : Option String
  title : String
  content : String
  style : String
  progress : Int
  updated_at : Nat
deriving DecidableEq, Repr

/-- `doc = payload.model_dump(); doc["updated_at"] = datetime.utcnow()`:
every payload field is copied, and `updated_at` is replaced by the server
clock `now` (the payload's own `updated_at` is discarded). -/
def mkDoc (p : EbookPayload) (now : Nat) : DocFields :=
  { id := p.id, title := p.title, content := p.content, style := p.style,
    progress := p.progress, updated_at := now }

/-- Effect of `{"$set": doc}` on one stored document: every dict key of `doc`
overwrites the corresponding stored field; `_id` is untouched. -/
def applySet (d : StoredDoc) (f : DocFields) : StoredDoc :=
  { d with
    payloadId := f.id
    title := f.title
    content := f.content
    style := f.style
    progress := f.progress
    updated_at := f.updated_at }

/-- `db["ebook"].update_one({"_id": tid}, {"$set": f})`: apply `$set` to the
first document whose `_id` matches the filter. -/
def update_one : List StoredDoc → Nat → DocFields → List StoredDoc
  | [], _, _ => []
  | d :: rest, tid, f =>
    if d._id == tid then applySet d f :: rest else d :: update_one rest tid f

/-- `db["ebook"].insert_one(f)`: append a new document carrying the dict's
fields under a freshly assigned `_id`; return the new store and
`res.inserted_id`. -/
def insert_one (s : EbookStore) (f : DocFields) : EbookStore × Nat :=
  let newDoc : StoredDoc :=
    { _id := s.nextId, payloadId := f.id, title := f.title, content := f.content,
      style := f.style, progress := f.progress, updated_at := f.updated_at }
  (⟨s.docs ++ [newDoc], s.nextId + 1⟩, s.nextId)

/-- `db["ebook"].find_one({"title": t})`: the first stored document whose
title equals `t` exactly, if any. -/
def find_one_by_title (docs : List StoredDoc) (t : String) : Option StoredDoc :=
  docs.find? (fun d => d.title == t)

/-- The JSON body returned by `POST /api/ebook/save` on success. -/
structure SaveResult where
  status : String
  id : String
deriving DecidableEq, Repr

/-- Core of `save_ebook` in `main.py`, once the store is available: stamp
`updated_at`, look up an existing document by exact title; if found, `$set`
all dict fields onto it and answer `"updated"` with its existing `_id`;
otherwise insert the dict as a new document and answer `"created"` with the
newly assigned `_id` (ids are rendered with `str(...)`). -/
def save_ebook (p : EbookPayload) (now : Nat) (s : EbookStore) : EbookStore × SaveResult :=
  let doc := mkDoc p now
  match find_one_by_title s.docs p.title with
  | some existing =>
    (⟨update_one s.docs existing._id doc, s.nextId⟩, ⟨"updated", toString existing._id⟩)
  | none =>
    let r := insert_one s doc
    (r.1, ⟨"created", toString r.2⟩)

/-- Ordering used by `.sort("updated_at", -1)`: larger `updated_at` first. -/
def byUpdatedDesc (a b : StoredDoc) : Prop := b.updated_at ≤ a.updated_at

instance : DecidableRel byUpdatedDesc := fun a b => Nat.decLe b.updated_at a.updated_at

instance : IsTotal StoredDoc byUpdatedDesc := ⟨fun a b => le_total b.updated_at a.updated_at⟩

instance : IsTrans StoredDoc byUpdatedDesc := ⟨fun _ _ _ h1 h2 => le_trans h2 h1⟩

/-- `db["ebook"].find({}).sort("updated_at", -1)`: the documents ordered by
`updated_at` descending. -/
def sortDesc (l : List StoredDoc) : List StoredDoc := List.insertionSort byUpdatedDesc l

/-- One element of the `items` array returned by `GET /api/ebook/list`. -/
structure ListItem where
  id : String
  title : String
  content : String
  style : String
  progress : Int
  updated_at : Nat
deriving DecidableEq, Repr

/-- `d["id"] = str(d.pop("_id"))` applied to a fetched document: the storage
identifier is exposed as the plain `id` field, overwriting any stored `"id"`
key (`payloadId` does not survive into the output). -/
def toItem (d : StoredDoc) : ListItem :=
  { id := toString d._id, title := d.title, content := d.content,
    style := d.style, progress := d.progress, updated_at := d.updated_at }

/-- The cursor loop of `list_ebooks`: sort by `updated_at` descending, apply
`.limit(limit)`, and rewrite each document's identifier field. The handler's
`limit` is a plain Python `int`, passed through to PyMongo: `limit(0)` means
no limit (the whole cursor is iterated), and a negative limit makes the
server return a single batch of at most `|limit|` documents, so iteration
yields at most `|limit|` of them. -/
def list_items (s : EbookStore) (limit : Int) : List ListItem :=
  (if limit = 0 then sortDesc s.docs else (sortDesc s.docs).take limit.natAbs).map toItem

/-- The JSON body returned by `GET /api/ebook/list`. -/
structure ListResponse where
  items : List ListItem
deriving DecidableEq, Repr

/-- The behaviour of the shared database handle as the handlers observe it:
`list_collection_names()` either succeeds or raises, and the `ebook`
collection holds the drafts. (`db.name`, probed by `GET /test`, is only
written to a response field that is unconditionally overwritten afterwards,
so it is not modelled.) -/
structure Mongo where
  listCollections : Except String (List String)
  ebook : EbookStore
deriving Repr

/-- Outcome of `from database import db` at the top of a handler. -/
inductive DbImport where
  /-- the import raises `ImportError` with message `e` (module missing). -/
  | importError (e : String)
  /-- the import (or the diagnostics probe around it) raises some other
  exception with message `e`. -/
  | otherError (e : String)
  /-- the import succeeds; `db` is `None` exactly when the store is
  unconfigured. -/
  | imported (db : Option Mongo)

/-- The JSON body returned by `GET /test`. The Python dict starts with
`database_url`/`database_name` set to `None`, but both are unconditionally
overwritten with strings before returning, so the fields are modelled as
`String` with a dead `""` initial value. -/
structure TestResponse where
  backend : String
  database : String
  database_url : String
  database_name : String
  connection_status : String
  collections : List String
deriving DecidableEq, Repr

/-- `GET /test` (`test_database` in `main.py`): build the default response,
run the guarded probe of the database handle (every exception is caught and
rendered into the `database` string), then report the mere presence of the
two environment variables. Total: no input makes it raise. -/
def test_database (db : DbImport) (env : Env) : TestResponse :=
  let response : TestResponse :=
    { backend := "✅ Running", database := "❌ Not Available", database_url := "",
      database_name := "", connection_status := "Not Connected", collections := [] }
  let response : TestResponse :=
    match db with
    | .importError _ =>
      { response with database := "❌ Database module not found (run enable-database first)" }
    | .otherError e =>
      { response with database := "❌ Error: " ++ e.take 50 }
    | .imported none =>
      { response with database := "⚠️  Available but not initialized" }
    | .imported (some m) =>
      let response := { response with database := "✅ Available", connection_status := "Connected" }
      match m.listCollections with
      | .ok cs =>
        { response with collections := cs.take 10, database := "✅ Connected & Working" }
      | .error e =>
        { response with database := "⚠️  Connected but Error: " ++ e.take 50 }
  { response with
    database_url := if envTruthy env.DATABASE_URL then "✅ Set" else "❌ Not Set",
    database_name := if envTruthy env.DATABASE_NAME then "✅ Set" else "❌ Not Set" }

/-- The `preface` string of the ebook-mode stream in `token_stream`. -/
def preface : String :=
  "Voici un plan détaillé, puis une rédaction progressive des chapitres et enfin une proposition de couverture. Vous pouvez continuer à me donner des instructions pendant la génération.\n\n"

/-- The `stages` list of the ebook-mode stream: progress value and staged
text for each block. -/
def stages : List (Nat × String) :=
  [(10, "[progress:10] Plan de l'ebook généré.\n\n1. Introduction\n2. Concepts clés\n3. Études de cas\n4. Conclusion\n"),
   (55, "[progress:55] Rédaction des chapitres en cours...\n\nChapitre 1: ...\nChapitre 2: ...\nChapitre 3: ...\n"),
   (85, "[progress:85] Création de la couverture: Titre, sous-titre, auteur, palette.\n"),
   (100, "[progress:100] [done]")]

/-- The `reply` string of the generic branch of `token_stream`, built from
the stripped user message. -/
def genericReply (user_text : String) : String :=
  "Bien sûr! " ++ "Vous avez dit: '" ++ user_text ++ "'. "
    ++ "Voici une réponse utile, avec des idées concrètes et des étapes suivantes."

/-- `token_stream` in `main.py`: the sequence of one-character chunks the
generator yields. Ebook mode emits every character of the preface and then of
each stage text in order; any other mode emits every character of the generic
reply built from the stripped message. -/
def token_stream (req : ChatRequest) : List Char :=
  if req.mode == some "ebook" then
    preface.data ++ (stages.map (fun pt => pt.2.data)).flatten
  else
    (genericReply (pyStrip req.message)).data

/-- `POST /api/chat` (`chat` in `main.py`): reject a message that is empty
after stripping with a 400, otherwise stream `token_stream`. -/
def chat (req : ChatRequest) : Except HttpError (List Char) :=
  let user_text := pyStrip req.message
  if user_text == "" then .error ⟨400, "Message cannot be empty"⟩
  else .ok (token_stream req)

/-- `GET /api/ebook/list` (`list_ebooks` in `main.py`): a 500 when importing
the database module raises, `items: []` when the handle is `None`, otherwise
the sorted, limited, id-rewritten documents. The FastAPI query parameter
`limit` defaults to 20 when absent. -/
def list_ebooks (db : DbImport) (limit? : Option Int) : Except HttpError ListResponse :=
  let limit := limit?.getD 20
  match db with
  | .importError e => .error ⟨500, "Database not available: " ++ e⟩
  | .otherError e => .error ⟨500, "Database not available: " ++ e⟩
  | .imported none => .ok ⟨[]⟩
  | .imported (some m) => .ok ⟨list_items m.ebook limit⟩

/-- Run a sequence of saves (payload together with the server clock value at
that save) against a store, threading the store through. -/
def foldSave : List (EbookPayload × Nat) → EbookStore → EbookStore
  | [], s => s
  | pt :: rest, s => foldSave rest (save_ebook pt.1 pt.2 s).1

/-! ## Helper lemmas about the store operations -/

/-- `update_one` targeted at the id of the last document, when no earlier
document carries that id, rewrites exactly that last document. -/
theorem update_one_append_last (l : List StoredDoc) (x : StoredDoc) (f : DocFields)
    (h : ∀ d ∈ l, d._id ≠ x._id) :
    update_one (l ++ [x]) x._id f = l ++ [applySet x f] := by
  induction l with
  | nil => simp [update_one]
  | cons d rest ih =>
    have hd : (d._id == x._id) = false := by
      simp only [beq_eq_false_iff_ne, ne_eq]
      exact h d (List.mem_cons_self d rest)
    simp only [List.cons_append, update_one, hd, Bool.false_eq_true, if_false, List.cons.injEq,
      true_and]
    exact ih (fun d' hd' => h d' (List.mem_cons_of_mem _ hd'))

/-- If some document carries the targeted id, `update_one` leaves a document
carrying that id whose payload fields are exactly those of the `$set` dict. -/
theorem update_one_exists (l : List StoredDoc) (tid : Nat) (f : DocFields)
    (h : ∃ d ∈ l, d._id = tid) :
    ∃ d ∈ update_one l tid f, d._id = tid ∧ d.payloadId = f.id ∧ d.title = f.title
      ∧ d.content = f.content ∧ d.updated_at = f.updated_at := by
  induction l with
  | nil => simp at h
  | cons d rest ih =>
    by_cases hd : d._id = tid
    · refine ⟨applySet d f, ?_, hd, rfl, rfl, rfl, rfl⟩
      have : (d._id == tid) = true := beq_iff_eq.mpr hd
      simp [update_one, this]
    · have hbd : (d._id == tid) = false := beq_eq_false_iff_ne.mpr hd
      have hrest : ∃ d' ∈ rest, d'._id = tid := by
        rcases h with ⟨d', hd', he⟩
        rcases List.mem_cons.mp hd' with rfl | hmem
        · exact absurd he hd
        · exact ⟨d', hmem, he⟩
      rcases ih hrest with ⟨d', hmem, hprops⟩
      refine ⟨d', ?_, hprops⟩
      simp [update_one, hbd]
      exact Or.inr hmem

/-- When no stored document has the payload's title, `save_ebook` takes the
insert branch. -/
theorem save_ebook_of_not_found (p : EbookPayload) (now : Nat) (s : EbookStore)
    (h : find_one_by_title s.docs p.title = none) :
    save_ebook p now s =
      (⟨s.docs ++ [⟨s.nextId, p.id, p.title, p.content, p.style, p.progress, now⟩],
        s.nextId + 1⟩,
       ⟨"created", toString s.nextId⟩) := by
  simp [save_ebook, h, insert_one, mkDoc]

/-- When a stored document has the payload's title, `save_ebook` takes the
update branch. -/
theorem save_ebook_of_found (p : EbookPayload) (now : Nat) (s : EbookStore)
    (existing : StoredDoc) (h : find_one_by_title s.docs p.title = some existing) :
    save_ebook p now s =
      (⟨update_one s.docs existing._id (mkDoc p now), s.nextId⟩,
       ⟨"updated", toString existing._id⟩) := by
  simp [save_ebook, h]

/-- `sortDesc` output is ordered by `updated_at` descending. -/
theorem sortDesc_pairwise (l : List StoredDoc) : (sortDesc l).Pairwise byUpdatedDesc :=
  List.sorted_insertionSort byUpdatedDesc l

/-- Membership is preserved back through `sortDesc`. -/
theorem mem_of_mem_sortDesc {d : StoredDoc} {l : List StoredDoc}
    (h : d ∈ sortDesc l) : d ∈ l :=
  (List.perm_insertionSort byUpdatedDesc l).mem_iff.mp h

/-- `sortDesc` preserves length. -/
theorem sortDesc_length (l : List StoredDoc) : (sortDesc l).length = l.length :=
  List.length_insertionSort byUpdatedDesc l

/-- Every listed item is the id-rewritten image of some stored document. -/
theorem mem_list_items {s : EbookStore} {limit : Int} {it : ListItem}
    (h : it ∈ list_items s limit) : ∃ d ∈ s.docs, it = toItem d := by
  unfold list_items at h
  rcases List.mem_map.mp h with ⟨d, hd, rfl⟩
  by_cases h0 : limit = 0
  · rw [if_pos h0] at hd
    exact ⟨d, mem_of_mem_sortDesc hd, rfl⟩
  · rw [if_neg h0] at hd
    exact ⟨d, mem_of_mem_sortDesc ((List.take_sublist _ _).subset hd), rfl⟩

/-! ## Claim theorems -/

/-- Claim C1, amended: `GET /api/ebook/list` with the database module
imported but the handle unconfigured (`db is None`) returns HTTP success with
an empty `items` list, for every value of the `limit` query parameter. -/
theorem listEbooks_unconfigured_empty (limit? : Option Int) :
    list_ebooks (DbImport.imported none) limit? = .ok ⟨[]⟩ := rfl

/-- Claim C1, counterexample to the original statement: when the persistence
store is unavailable because importing the database module raises, the
endpoint returns a 500 error response, not HTTP success with `items: []`. -/
theorem listEbooks_unavailable_errors :
    list_ebooks (DbImport.importError "No module named database") (some 20) =
      .error ⟨500, "Database not available: No module named database"⟩ ∧
    list_ebooks (DbImport.importError "No module named database") (some 20) ≠
      .ok ⟨[]⟩ := by
  refine ⟨rfl, fun h => ?_⟩
  simp [list_ebooks] at h

/-- Claim C5: any `ChatRequest` whose message is empty after stripping is
rejected with a 400 error carrying detail "Message cannot be empty",
whatever the history and mode, and no stream is produced. -/
theorem chat_empty_message_400 (req : ChatRequest) (h : pyStrip req.message = "") :
    chat req = .error ⟨400, "Message cannot be empty"⟩ := by
  simp [chat, h]

/-- Claim C5, witness: a whitespace-only message with nonempty history and
`mode = "ebook"` gets the 400. -/
theorem chat_empty_message_400_witness :
    pyStrip " \t\n " = "" ∧
      chat ⟨" \t\n ", [⟨"user", "hi"⟩], some "ebook"⟩ =
        .error ⟨400, "Message cannot be empty"⟩ :=
  ⟨by decide, chat_empty_message_400 ⟨" \t\n ", [⟨"user", "hi"⟩], some "ebook"⟩ (by decide)⟩

/-- Claim C7: `GET /test` is a total function of the store state and the
environment (no input makes it raise), always reports `backend` as running,
and its `database` field is always one of the five enumerated
availability-tier status strings. -/
theorem test_database_total_enumerated (db : DbImport) (env : Env) :
    (test_database db env).backend = "✅ Running" ∧
    ((test_database db env).database =
        "❌ Database module not found (run enable-database first)" ∨
     (∃ e, (test_database db env).database = "❌ Error: " ++ e) ∨
     (test_database db env).database = "⚠️  Available but not initialized" ∨
     (test_database db env).database = "✅ Connected & Working" ∨
     (∃ e, (test_database db env).database = "⚠️  Connected but Error: " ++ e)) := by
  cases db with
  | importError e => exact ⟨rfl, Or.inl rfl⟩
  | otherError e => exact ⟨rfl, Or.inr (Or.inl ⟨e.take 50, rfl⟩)⟩
  | imported o =>
    cases o with
    | none => exact ⟨rfl, Or.inr (Or.inr (Or.inl rfl))⟩
    | some m =>
      cases hlc : m.listCollections with
      | ok cs =>
        refine ⟨?_, Or.inr (Or.inr (Or.inr (Or.inl ?_)))⟩ <;> simp [test_database, hlc]
      | error e =>
        refine ⟨?_, Or.inr (Or.inr (Or.inr (Or.inr ⟨e.take 50, ?_⟩)))⟩ <;>
          simp [test_database, hlc]

/-- Claim C9, counterexample to the original statement: two runs that differ
only in the value of `DATABASE_URL`, which is set in both runs (to the empty
string in one), report different `database_url` fields, because the handler
tests Python truthiness rather than presence. -/
theorem test_database_empty_value_distinguished :
    (test_database (DbImport.imported none) ⟨some "", some "app"⟩).database_url ≠
      (test_database (DbImport.imported none)
        ⟨some "mongodb://localhost:27017", some "app"⟩).database_url := by
  decide

/-- Claim C9, amended: the `database_url` and `database_name` fields of
`GET /test` never contain the configured values; for any two runs that differ
only in the values of the two variables, both set to non-empty strings in
each run, the reported fields are identical (both read "✅ Set"). -/
theorem test_database_env_noninterference (db : DbImport) (u1 u2 n1 n2 : String)
    (hu1 : u1 ≠ "") (hu2 : u2 ≠ "") (hn1 : n1 ≠ "") (hn2 : n2 ≠ "") :
    (test_database db ⟨some u1, some n1⟩).database_url
        = (test_database db ⟨some u2, some n2⟩).database_url ∧
    (test_database db ⟨some u1, some n1⟩).database_name
        = (test_database db ⟨some u2, some n2⟩).database_name ∧
    (test_database db ⟨some u1, some n1⟩).database_url = "✅ Set" ∧
    (test_database db ⟨some u1, some n1⟩).database_name = "✅ Set" := by
  have e1 : envTruthy (some u1) = true := by simp [envTruthy, hu1]
  have e2 : envTruthy (some u2) = true := by simp [envTruthy, hu2]
  have e3 : envTruthy (some n1) = true := by simp [envTruthy, hn1]
  have e4 : envTruthy (some n2) = true := by simp [envTruthy, hn2]
  refine ⟨?_, ?_, ?_, ?_⟩ <;> simp [test_database, e1, e2, e3, e4]

/-- Claim C9, witness: two concrete runs with distinct non-empty connection
values report identical presence-only fields. -/
theorem test_database_env_noninterference_witness :
    "mongodb://db:27017/a" ≠ "" ∧ "postgres://h/x" ≠ "" ∧ "app" ≠ "" ∧ "prod" ≠ "" ∧
    ((test_database (DbImport.imported none)
        ⟨some "mongodb://db:27017/a", some "app"⟩).database_url
      = (test_database (DbImport.imported none)
        ⟨some "postgres://h/x", some "prod"⟩).database_url ∧
     (test_database (DbImport.imported none)
        ⟨some "mongodb://db:27017/a", some "app"⟩).database_name
      = (test_database (DbImport.imported none)
        ⟨some "postgres://h/x", some "prod"⟩).database_name ∧
     (test_database (DbImport.imported none)
        ⟨some "mongodb://db:27017/a", some "app"⟩).database_url = "✅ Set" ∧
     (test_database (DbImport.imported none)
        ⟨some "mongodb://db:27017/a", some "app"⟩).database_name = "✅ Set") :=
  ⟨by decide, by decide, by decide, by decide,
   test_database_env_noninterference (DbImport.imported none)
     "mongodb://db:27017/a" "postgres://h/x" "app" "prod"
     (by decide) (by decide) (by decide) (by decide)⟩

/-- In ebook mode the stream is the fixed script: preface characters, then
every stage text's characters in order. -/
theorem token_stream_ebook (req : ChatRequest) (h : req.mode = some "ebook") :
    token_stream req = preface.data ++ (stages.map (fun pt => pt.2.data)).flatten := by
  simp [token_stream, h]

/-- Outside ebook mode the stream is exactly the characters of the generic
templated sentence built from the stripped message. -/
theorem token_stream_generic (req : ChatRequest) (h : req.mode ≠ some "ebook") :
    token_stream req = (genericReply (pyStrip req.message)).data := by
  have hb : (req.mode == some "ebook") = false := beq_eq_false_iff_ne.mpr h
  simp [token_stream, hb]

/-- Claim C3, counterexample to the original statement: for the message
`" hi "` (non-empty after trimming), the generic-mode stream embeds only the
stripped text `"hi"`, so the verbatim user message `" hi "` is not a
substring of the concatenated content. -/
theorem chat_generic_untrimmed_not_substring :
    pyStrip " hi " ≠ "" ∧
    ¬ List.IsInfix (" hi ").data (token_stream ⟨" hi ", [], none⟩) :=
  ⟨by decide, by decide⟩

/-- Claim C3, amended: for every message whose stripped form is non-empty,
`POST /api/chat` with mode absent or unrecognized succeeds and streams, one
character at a time, the single templated sentence embedding the stripped
user message; the stripped message occurs verbatim as a substring of the
concatenated content, and the stream is finite (exactly the characters of
that sentence). -/
theorem chat_generic_contains_message (m : String) (hist : List ChatTurn)
    (mode : Option String) (hm : pyStrip m ≠ "") (hmode : mode ≠ some "ebook") :
    chat ⟨m, hist, mode⟩ = .ok (token_stream ⟨m, hist, mode⟩) ∧
    token_stream ⟨m, hist, mode⟩ = (genericReply (pyStrip m)).data ∧
    List.IsInfix (pyStrip m).data (token_stream ⟨m, hist, mode⟩) := by
  have hstream : token_stream ⟨m, hist, mode⟩ = (genericReply (pyStrip m)).data :=
    token_stream_generic ⟨m, hist, mode⟩ hmode
  have hb : (pyStrip m == "") = false := beq_eq_false_iff_ne.mpr hm
  refine ⟨by simp [chat, hb], hstream, ?_⟩
  rw [hstream]
  refine ⟨("Bien sûr! " ++ "Vous avez dit: '").data,
    ("'. " ++ "Voici une réponse utile, avec des idées concrètes et des étapes suivantes.").data,
    ?_⟩
  simp [genericReply, String.data_append, List.append_assoc]

/-- Claim C3, witness: the amended statement at the concrete message
`"hello"` with a nonempty history and the unrecognized mode `"chat"`. -/
theorem chat_generic_contains_message_witness :
    pyStrip "hello" ≠ "" ∧ (some "chat" : Option String) ≠ some "ebook" ∧
    (chat ⟨"hello", [⟨"user", "x"⟩], some "chat"⟩ =
        .ok (token_stream ⟨"hello", [⟨"user", "x"⟩], some "chat"⟩) ∧
      token_stream ⟨"hello", [⟨"user", "x"⟩], some "chat"⟩ =
        (genericReply (pyStrip "hello")).data ∧
      List.IsInfix (pyStrip "hello").data
        (token_stream ⟨"hello", [⟨"user", "x"⟩], some "chat"⟩)) :=
  ⟨by decide, by decide,
   chat_generic_contains_message "hello" [⟨"user", "x"⟩] (some "chat")
     (by decide) (by decide)⟩

/-- Claim C4: for any two requests in ebook mode with messages non-empty
after stripping, `POST /api/chat` succeeds; the emitted character sequence is
identical for the two requests (deterministic, independent of message and
history); the concatenated text contains the progress markers "10", "55",
"85", "100" in that order; and the stream terminates with the literal marker
"[done]". -/
theorem chat_ebook_progress_deterministic (r1 r2 : ChatRequest)
    (h1 : r1.mode = some "ebook") (h2 : r2.mode = some "ebook")
    (hm1 : pyStrip r1.message ≠ "") (hm2 : pyStrip r2.message ≠ "") :
    chat r1 = .ok (token_stream r1) ∧
    chat r2 = .ok (token_stream r2) ∧
    token_stream r1 = token_stream r2 ∧
    (∃ a b c d e : List Char,
      token_stream r1 =
        a ++ "10".data ++ b ++ "55".data ++ c ++ "85".data ++ d ++ "100".data ++ e) ∧
    (∃ f : List Char, token_stream r1 = f ++ "[done]".data) := by
  have e1 := token_stream_ebook r1 h1
  have e2 := token_stream_ebook r2 h2
  have hb : (pyStrip r1.message == "") = false := beq_eq_false_iff_ne.mpr hm1
  have hb2 : (pyStrip r2.message == "") = false := beq_eq_false_iff_ne.mpr hm2
  refine ⟨by simp [chat, hb], by simp [chat, hb2], e1.trans e2.symm, ?_, ?_⟩
  · refine ⟨(preface ++ "[progress:").data,
      ("] Plan de l'ebook généré.\n\n1. Introduction\n2. Concepts clés\n3. Études de cas\n4. Conclusion\n[progress:").data,
      ("] Rédaction des chapitres en cours...\n\nChapitre 1: ...\nChapitre 2: ...\nChapitre 3: ...\n[progress:").data,
      ("] Création de la couverture: Titre, sous-titre, auteur, palette.\n[progress:").data,
      ("] [done]").data, ?_⟩
    rw [e1]
    decide
  · refine ⟨(preface ++ "[progress:10] Plan de l'ebook généré.\n\n1. Introduction\n2. Concepts clés\n3. Études de cas\n4. Conclusion\n[progress:55] Rédaction des chapitres en cours...\n\nChapitre 1: ...\nChapitre 2: ...\nChapitre 3: ...\n[progress:85] Création de la couverture: Titre, sous-titre, auteur, palette.\n[progress:100] ").data, ?_⟩
    rw [e1]
    decide

/-- Claim C4, witness: two concrete ebook-mode requests with different
messages and histories get the same stream with the markers in order. -/
theorem chat_ebook_progress_deterministic_witness :
    (⟨"write a book", [], some "ebook"⟩ : ChatRequest).mode = some "ebook" ∧
    (⟨"autre chose", [⟨"user", "hi"⟩], some "ebook"⟩ : ChatRequest).mode = some "ebook" ∧
    pyStrip "write a book" ≠ "" ∧ pyStrip "autre chose" ≠ "" ∧
    (chat ⟨"write a book", [], some "ebook"⟩ =
        .ok (token_stream ⟨"write a book", [], some "ebook"⟩) ∧
      chat ⟨"autre chose", [⟨"user", "hi"⟩], some "ebook"⟩ =
        .ok (token_stream ⟨"autre chose", [⟨"user", "hi"⟩], some "ebook"⟩) ∧
      token_stream ⟨"write a book", [], some "ebook"⟩ =
        token_stream ⟨"autre chose", [⟨"user", "hi"⟩], some "ebook"⟩ ∧
      (∃ a b c d e : List Char,
        token_stream ⟨"write a book", [], some "ebook"⟩ =
          a ++ "10".data ++ b ++ "55".data ++ c ++ "85".data ++ d ++ "100".data ++ e) ∧
      (∃ f : List Char,
        token_stream ⟨"write a book", [], some "ebook"⟩ = f ++ "[done]".data)) :=
  ⟨rfl, rfl, by decide, by decide,
   chat_ebook_progress_deterministic ⟨"write a book", [], some "ebook"⟩
     ⟨"autre chose", [⟨"user", "hi"⟩], some "ebook"⟩ rfl rfl (by decide) (by decide)⟩

/-- Claim C2: saving a draft whose title matches no stored document inserts
and returns "created" with the newly assigned identifier; a second save with
the same title (and any content) finds that document, overwrites it in place,
and returns "updated" with the same identifier, leaving exactly one stored
document for that title, carrying the second save's content. -/
theorem save_upsert_by_title (s : EbookStore) (p1 p2 : EbookPayload) (n1 n2 : Nat)
    (hfresh : ∀ d ∈ s.docs, d.title ≠ p1.title)
    (hids : ∀ d ∈ s.docs, d._id ≠ s.nextId)
    (htitle : p2.title = p1.title) :
    (save_ebook p1 n1 s).2 = ⟨"created", toString s.nextId⟩ ∧
    (save_ebook p2 n2 (save_ebook p1 n1 s).1).2 = ⟨"updated", toString s.nextId⟩ ∧
    ∃ d, ((save_ebook p2 n2 (save_ebook p1 n1 s).1).1.docs.filter
        (fun x => x.title == p1.title)) = [d] ∧
      d.content = p2.content ∧ d._id = s.nextId ∧ d.updated_at = n2 := by
  have hnone : find_one_by_title s.docs p1.title = none := by
    apply List.find?_eq_none.mpr
    intro d hd
    simp only [beq_iff_eq]
    exact hfresh d hd
  have hs1 := save_ebook_of_not_found p1 n1 s hnone
  have hfind2 :
      find_one_by_title (s.docs ++ [⟨s.nextId, p1.id, p1.title, p1.content, p1.style,
        p1.progress, n1⟩]) p2.title =
        some ⟨s.nextId, p1.id, p1.title, p1.content, p1.style, p1.progress, n1⟩ := by
    unfold find_one_by_title at hnone ⊢
    rw [htitle, List.find?_append, hnone]
    simp
  have hs2 := save_ebook_of_found p2 n2
    ⟨s.docs ++ [⟨s.nextId, p1.id, p1.title, p1.content, p1.style, p1.progress, n1⟩],
      s.nextId + 1⟩
    ⟨s.nextId, p1.id, p1.title, p1.content, p1.style, p1.progress, n1⟩ hfind2
  have hupd : update_one
      (s.docs ++ [⟨s.nextId, p1.id, p1.title, p1.content, p1.style, p1.progress, n1⟩])
      s.nextId (mkDoc p2 n2) =
      s.docs ++ [applySet ⟨s.nextId, p1.id, p1.title, p1.content, p1.style, p1.progress, n1⟩
        (mkDoc p2 n2)] :=
    update_one_append_last s.docs _ _ hids
  rw [hs1, hs2]
  refine ⟨rfl, rfl, ⟨applySet ⟨s.nextId, p1.id, p1.title, p1.content, p1.style,
    p1.progress, n1⟩ (mkDoc p2 n2), ?_, rfl, rfl, rfl⟩⟩
  simp only [hupd, List.filter_append]
  have hleft : s.docs.filter (fun x => x.title == p1.title) = [] := by
    rw [List.filter_eq_nil_iff]
    intro d hd
    simp only [beq_iff_eq]
    exact hfresh d hd
  have hright : ((applySet ⟨s.nextId, p1.id, p1.title, p1.content, p1.style, p1.progress, n1⟩
      (mkDoc p2 n2)).title == p1.title) = true := by
    simp [applySet, mkDoc, htitle]
  simp [hleft, hright]

/-- Claim C2, witness: on an empty store, save title "T" with content "A",
then save title "T" with content "B": statuses "created" then "updated" with
the same id, one stored document titled "T" with content "B". -/
theorem save_upsert_by_title_witness :
    (∀ d ∈ emptyStore.docs, d.title ≠ "T") ∧
    (∀ d ∈ emptyStore.docs, d._id ≠ emptyStore.nextId) ∧
    ("T" : String) = "T" ∧
    ((save_ebook ⟨none, "T", "A", "st", 0, none⟩ 1 emptyStore).2 =
        ⟨"created", toString emptyStore.nextId⟩ ∧
      (save_ebook ⟨none, "T", "B", "st", 50, some 99⟩ 2
          (save_ebook ⟨none, "T", "A", "st", 0, none⟩ 1 emptyStore).1).2 =
        ⟨"updated", toString emptyStore.nextId⟩ ∧
      ∃ d, ((save_ebook ⟨none, "T", "B", "st", 50, some 99⟩ 2
          (save_ebook ⟨none, "T", "A", "st", 0, none⟩ 1 emptyStore).1).1.docs.filter
            (fun x => x.title == "T")) = [d] ∧
        d.content = "B" ∧ d._id = emptyStore.nextId ∧ d.updated_at = 2) :=
  ⟨by simp [emptyStore], by simp [emptyStore], rfl,
   save_upsert_by_title emptyStore ⟨none, "T", "A", "st", 0, none⟩
     ⟨none, "T", "B", "st", 50, some 99⟩ 1 2
     (by simp [emptyStore]) (by simp [emptyStore]) rfl⟩

/-- Claim C8: on every save, in both branches, the stored document for the
payload's title carries `updated_at` equal to the server's current time, and
the result is entirely independent of any `updated_at` value supplied in the
request payload. -/
theorem save_stamps_updated_at (p : EbookPayload) (x : Option Nat) (now : Nat)
    (s : EbookStore) :
    save_ebook { p with updated_at := x } now s = save_ebook p now s ∧
    ∃ d ∈ (save_ebook p now s).1.docs,
      d.title = p.title ∧ d.updated_at = now ∧
        toString d._id = (save_ebook p now s).2.id := by
  refine ⟨rfl, ?_⟩
  cases hfind : find_one_by_title s.docs p.title with
  | none =>
    rw [save_ebook_of_not_found p now s hfind]
    refine ⟨⟨s.nextId, p.id, p.title, p.content, p.style, p.progress, now⟩, ?_, rfl, rfl, rfl⟩
    simp
  | some existing =>
    rw [save_ebook_of_found p now s existing hfind]
    have hex : ∃ d ∈ s.docs, d._id = existing._id :=
      ⟨existing, List.mem_of_find?_eq_some hfind, rfl⟩
    rcases update_one_exists s.docs existing._id (mkDoc p now) hex with
      ⟨d, hmem, hid, _, htitle, _, hupd⟩
    exact ⟨d, hmem, by simpa [mkDoc] using htitle, by simpa [mkDoc] using hupd,
      by simp [hid]⟩

/-- Claim C10: the save result (status and returned id) does not depend on
the client-supplied payload `id`; the payload `id` is nevertheless persisted
verbatim into the stored document; and every item returned by the list
operation exposes as `id` the string form of the underlying document's
storage `_id` (the stored payload id is overwritten in the output). -/
theorem list_id_overwrites_payload_id (p : EbookPayload) (x : Option String) (now : Nat)
    (s : EbookStore) (limit : Int) (it : ListItem) (hit : it ∈ list_items s limit) :
    (save_ebook { p with id := x } now s).2 = (save_ebook p now s).2 ∧
    (∃ d ∈ (save_ebook p now s).1.docs, d.payloadId = p.id ∧ d.title = p.title) ∧
    (∃ d ∈ s.docs, it = toItem d ∧ it.id = toString d._id) := by
  refine ⟨?_, ?_, ?_⟩
  · cases hfind : find_one_by_title s.docs p.title with
    | none =>
      rw [save_ebook_of_not_found p now s hfind,
        save_ebook_of_not_found { p with id := x } now s hfind]
    | some existing =>
      rw [save_ebook_of_found p now s existing hfind,
        save_ebook_of_found { p with id := x } now s existing hfind]
  · cases hfind : find_one_by_title s.docs p.title with
    | none =>
      rw [save_ebook_of_not_found p now s hfind]
      refine ⟨⟨s.nextId, p.id, p.title, p.content, p.style, p.progress, now⟩, ?_, rfl, rfl⟩
      simp
    | some existing =>
      rw [save_ebook_of_found p now s existing hfind]
      have hex : ∃ d ∈ s.docs, d._id = existing._id :=
        ⟨existing, List.mem_of_find?_eq_some hfind, rfl⟩
      rcases update_one_exists s.docs existing._id (mkDoc p now) hex with
        ⟨d, hmem, _, hpid, htitle, _, _⟩
      exact ⟨d, hmem, by simpa [mkDoc] using hpid, by simpa [mkDoc] using htitle⟩
  · rcases mem_list_items hit with ⟨d, hd, rfl⟩
    exact ⟨d, hd, rfl, rfl⟩

/-- Claim C10, witness: a concrete store with one document (client id
"cid" persisted, storage id 5); the listed item exposes id "5", and a save
with a different client id gives the same result. -/
theorem list_id_overwrites_payload_id_witness :
    (⟨"5", "t", "c", "st", 1, 7⟩ : ListItem) ∈
      list_items ⟨[⟨5, some "cid", "t", "c", "st", 1, 7⟩], 6⟩ 3 ∧
    ((save_ebook { (⟨none, "fresh", "cc", "ss", 0, none⟩ : EbookPayload) with
          id := some "other" } 9 ⟨[⟨5, some "cid", "t", "c", "st", 1, 7⟩], 6⟩).2 =
        (save_ebook ⟨none, "fresh", "cc", "ss", 0, none⟩ 9
          ⟨[⟨5, some "cid", "t", "c", "st", 1, 7⟩], 6⟩).2 ∧
      (∃ d ∈ (save_ebook ⟨none, "fresh", "cc", "ss", 0, none⟩ 9
          ⟨[⟨5, some "cid", "t", "c", "st", 1, 7⟩], 6⟩).1.docs,
        d.payloadId = (⟨none, "fresh", "cc", "ss", 0, none⟩ : EbookPayload).id ∧
          d.title = (⟨none, "fresh", "cc", "ss", 0, none⟩ : EbookPayload).title) ∧
      (∃ d ∈ (⟨[⟨5, some "cid", "t", "c", "st", 1, 7⟩], 6⟩ : EbookStore).docs,
        (⟨"5", "t", "c", "st", 1, 7⟩ : ListItem) = toItem d ∧
          (⟨"5", "t", "c", "st", 1, 7⟩ : ListItem).id = toString d._id)) :=
  ⟨by decide,
   list_id_overwrites_payload_id ⟨none, "fresh", "cc", "ss", 0, none⟩ (some "other") 9
     ⟨[⟨5, some "cid", "t", "c", "st", 1, 7⟩], 6⟩ 3 ⟨"5", "t", "c", "st", 1, 7⟩
     (by decide)⟩

/-- Saving a sequence of payloads whose titles are pairwise distinct and
absent from the store inserts one document per payload. -/
theorem foldSave_length : ∀ (ps : List (EbookPayload × Nat)) (s : EbookStore),
    (∀ pt ∈ ps, ∀ d ∈ s.docs, d.title ≠ pt.1.title) →
    (ps.map (fun pt => pt.1.title)).Nodup →
    (foldSave ps s).docs.length = s.docs.length + ps.length := by
  intro ps
  induction ps with
  | nil => intro s _ _; simp [foldSave]
  | cons pt rest ih =>
    intro s hfresh hnd
    rw [List.map_cons, List.nodup_cons] at hnd
    obtain ⟨hni, hnd'⟩ := hnd
    have hnone : find_one_by_title s.docs pt.1.title = none := by
      apply List.find?_eq_none.mpr
      intro d hd
      simp only [beq_iff_eq]
      exact hfresh pt (List.mem_cons_self _ _) d hd
    have hstep : foldSave (pt :: rest) s = foldSave rest (save_ebook pt.1 pt.2 s).1 := rfl
    rw [hstep, save_ebook_of_not_found pt.1 pt.2 s hnone]
    have hfresh' : ∀ qt ∈ rest,
        ∀ d ∈ s.docs ++ [⟨s.nextId, pt.1.id, pt.1.title, pt.1.content, pt.1.style,
          pt.1.progress, pt.2⟩], d.title ≠ qt.1.title := by
      intro qt hqt d hd
      rcases List.mem_append.mp hd with h | h
      · exact hfresh qt (List.mem_cons_of_mem _ hqt) d h
      · rcases List.mem_singleton.mp h with rfl
        intro he
        exact hni (List.mem_map.mpr ⟨qt, hqt, he.symm⟩)
    have := ih ⟨s.docs ++ [⟨s.nextId, pt.1.id, pt.1.title, pt.1.content, pt.1.style,
      pt.1.progress, pt.2⟩], s.nextId + 1⟩ hfresh' hnd'
    rw [this]
    simp
    omega

/-- Claim C6, counterexample to the original statement: after saving one
draft (N = 1) into the empty store, requesting limit k = 0 (so k < N)
returns all stored documents — `.limit(0)` means "no limit" in MongoDB — so
the response holds 1 item, neither at most k = 0 nor exactly k = 0 items. -/
theorem listEbooks_limit_zero_returns_all :
    (list_items (save_ebook ⟨none, "t", "c", "st", 1, none⟩ 7 emptyStore).1 0).length = 1 ∧
    ¬ ((list_items (save_ebook ⟨none, "t", "c", "st", 1, none⟩ 7 emptyStore).1 0).length ≤ 0) :=
  ⟨by decide, by decide⟩

/-- Claim C6, amended: for a positive limit `k ≥ 1` the list operation
returns at most `limit` items; an absent `limit` query parameter behaves as
20; items are ordered by `updated_at` descending; each item exposes the
underlying document's storage identifier as its plain `id` field; and after
saving N drafts with pairwise-distinct titles into an empty store, listing
with `1 ≤ k < N` returns exactly `k` items. (Limit 0 is passed through to
MongoDB, which treats it as "no limit" and returns every document.) -/
theorem listEbooks_limit_order (ps : List (EbookPayload × Nat)) (k : Nat) (s : EbookStore)
    (limit : Int) (it : ListItem) (db : DbImport) (hpos : 0 < limit)
    (hnd : (ps.map (fun pt => pt.1.title)).Nodup) (hk0 : 0 < k) (hk : k < ps.length)
    (hit : it ∈ list_items s limit) :
    (list_items s limit).length ≤ limit.natAbs ∧
    list_ebooks db none = list_ebooks db (some 20) ∧
    (list_items s limit).Pairwise (fun a b => b.updated_at ≤ a.updated_at) ∧
    (∃ d ∈ s.docs, it = toItem d ∧ it.id = toString d._id) ∧
    (list_items (foldSave ps emptyStore) (k : Int)).length = k := by
  have hne : limit ≠ 0 := hpos.ne'
  refine ⟨?_, rfl, ?_, ?_, ?_⟩
  · simp only [list_items, if_neg hne, List.length_map]
    exact List.length_take_le _ _
  · simp only [list_items, if_neg hne]
    exact List.pairwise_map.mpr
      (List.Pairwise.sublist (List.take_sublist _ _) (sortDesc_pairwise s.docs))
  · rcases mem_list_items hit with ⟨d, hd, rfl⟩
    exact ⟨d, hd, rfl, rfl⟩
  · have hlen : (foldSave ps emptyStore).docs.length = ps.length := by
      have := foldSave_length ps emptyStore (by simp [emptyStore]) hnd
      simpa [emptyStore] using this
    have hkne : (k : Int) ≠ 0 := by
      simp only [ne_eq, Int.natCast_eq_zero]
      omega
    simp only [list_items, if_neg hkne, Int.natAbs_ofNat, List.length_map,
      List.length_take, sortDesc_length, hlen]
    omega

/-- Claim C6, witness: two saves with distinct titles into the empty store,
listed with limit 1, return exactly one item; a concrete one-document store
listed with limit 3 lists the item with id "5". -/
theorem listEbooks_limit_order_witness :
    (0 : Int) < 3 ∧
    ([(⟨none, "TA", "a", "s", 0, none⟩, 1), (⟨none, "TB", "b", "s", 0, none⟩, 2)].map
        (fun pt : EbookPayload × Nat => pt.1.title)).Nodup ∧
    0 < 1 ∧
    1 < ([(⟨none, "TA", "a", "s", 0, none⟩, 1),
      (⟨none, "TB", "b", "s", 0, none⟩, 2)] : List (EbookPayload × Nat)).length ∧
    (⟨"5", "t", "c", "st", 1, 7⟩ : ListItem) ∈
      list_items ⟨[⟨5, none, "t", "c", "st", 1, 7⟩], 6⟩ 3 ∧
    ((list_items ⟨[⟨5, none, "t", "c", "st", 1, 7⟩], 6⟩ 3).length ≤ (3 : Int).natAbs ∧
      list_ebooks (DbImport.imported none) none =
        list_ebooks (DbImport.imported none) (some 20) ∧
      (list_items ⟨[⟨5, none, "t", "c", "st", 1, 7⟩], 6⟩ 3).Pairwise
        (fun a b => b.updated_at ≤ a.updated_at) ∧
      (∃ d ∈ (⟨[⟨5, none, "t", "c", "st", 1, 7⟩], 6⟩ : EbookStore).docs,
        (⟨"5", "t", "c", "st", 1, 7⟩ : ListItem) = toItem d ∧
          (⟨"5", "t", "c", "st", 1, 7⟩ : ListItem).id = toString d._id) ∧
      (list_items (foldSave [(⟨none, "TA", "a", "s", 0, none⟩, 1),
        (⟨none, "TB", "b", "s", 0, none⟩, 2)] emptyStore) (1 : Int)).length = 1) :=
  ⟨by decide, by decide, by decide, by decide, by decide,
   listEbooks_limit_order
     [(⟨none, "TA", "a", "s", 0, none⟩, 1), (⟨none, "TB", "b", "s", 0, none⟩, 2)] 1
     ⟨[⟨5, none, "t", "c", "st", 1, 7⟩], 6⟩ 3 ⟨"5", "t", "c", "st", 1, 7⟩
     (DbImport.imported none) (by decide) (by decide) (by decide) (by decide) (by decide)⟩
